import Mathlib

/-!
Shallow embedding of the annotation workflow views in
`src/backend/django/core/views/api_annotate.py` (SMART).

Database tables are embedded as lists of rows inside a `State` record; each
view function becomes a pure function `State → args → State × Outcome`, where
the returned `State` is the store contents when the request handler exits
(including writes that had already committed when an exception was raised,
since only the blocks wrapped in `transaction.atomic()` roll back together).

The helper functions `process_irr_label`, `label_data`,
`move_skipped_to_admin_queue` and `unassign_datum` live in
`core/utils/utils_annotate.py`, which is not part of the sources here; they
are modelled from the specification (§4.1, §4.2, §4.5, §4.6) and are marked
as such in their doc comments.
-/

namespace Smart

/-- A row of the `Data` table: item pk, owning project pk, payload text,
`irr_ind` (reliability flag) and `explicit_ind` (sensitive flag). -/
structure DataRow where
  pk : Nat
  project : Nat
  text : String
  irr_ind : Bool
  explicit_ind : Bool
deriving DecidableEq

/-- A row of the `Label` table. -/
structure LabelRow where
  pk : Nat
  name : String
  project : Nat
deriving DecidableEq

/-- A row of the `Project` table, restricted to the fields the embedded views
read: `num_users_irr`, `use_explicit_ind` and the current training set pk. -/
structure ProjectRow where
  pk : Nat
  num_users_irr : Nat
  use_explicit_ind : Bool
  current_training_set : Nat
deriving DecidableEq

/-- A row of the `DataLabel` table. -/
structure DataLabelRow where
  data : Nat
  label : Nat
  profile : Nat
  label_reason : String
  training_set : Nat
  time_to_label : Option Nat
  was_skipped : Bool
  timestamp : Nat
deriving DecidableEq

/-- A row of the `IRRLog` table; `label = none` records a skip vote. -/
structure IRRLogRow where
  data : Nat
  profile : Nat
  label : Option Nat
  label_reason : String
  timestamp : Nat
deriving DecidableEq

/-- A row of the `AssignedData` table. -/
structure AssignedRow where
  data : Nat
  profile : Nat
deriving DecidableEq

/-- A row of the `DataQueue` table for the per-project `admin` queue (the only
queue the embedded views touch); identified by item pk and project pk. -/
structure QueueRow where
  data : Nat
  project : Nat
deriving DecidableEq

/-- A row of the `RecycleBin` table. -/
structure RecycleRow where
  data : Nat
  timestamp : Nat
deriving DecidableEq

/-- A row of the `LabelChangeLog` table. -/
structure ChangeLogRow where
  project : Nat
  data : Nat
  profile : Nat
  old_label : String
  new_label : String
  change_timestamp : Nat
deriving DecidableEq

/-- A row of the `AdminProgress` table (the admin screen lock). -/
structure AdminProgressRow where
  project : Nat
  profile : Nat
  timestamp : Nat
deriving DecidableEq

/-- The database state the embedded views read and write. -/
structure State where
  datas : List DataRow
  labels : List LabelRow
  projects : List ProjectRow
  dataLabels : List DataLabelRow
  irrLog : List IRRLogRow
  assignedData : List AssignedRow
  dataQueueAdmin : List QueueRow
  recycleBin : List RecycleRow
  changeLog : List ChangeLogRow
  adminProgress : List AdminProgressRow
deriving DecidableEq

/-- Result of a request: an HTTP 200 `Response` whose body optionally carries
a domain-level `error` string, or an uncaught exception (`Model.DoesNotExist`
→ transport-level NotFound, `MultipleObjectsReturned`, a database error
aborting an atomic block, or `NotAssigned` — spec §4.1/§7: releasing an
assignment that does not exist is an internal invariant violation that
aborts the operation). -/
inductive Outcome where
  | resp (error : Option String)
  | notFound
  | multipleReturned
  | dbError
  | notAssigned
deriving DecidableEq

/-- Result of Django `Model.objects.get(...)`: the unique matching row, or
`DoesNotExist`, or `MultipleObjectsReturned`. -/
inductive Got (α : Type) where
  | found (a : α)
  | absent
  | multiple
deriving DecidableEq

/-- `getUnique rows` models `.get()` applied to the matching rows. -/
def getUnique {α : Type} : List α → Got α
  | [] => .absent
  | [a] => .found a
  | _ :: _ :: _ => .multiple

/-- `Data.objects.get(pk=pk)`, as a lookup. -/
def findData (s : State) (pk : Nat) : Option DataRow :=
  s.datas.find? (fun r => r.pk == pk)

/-- `Label.objects.get(pk=pk)`, as a lookup. -/
def findLabel (s : State) (pk : Nat) : Option LabelRow :=
  s.labels.find? (fun r => r.pk == pk)

/-- Project lookup (`data.project` foreign key / `Project.objects.get`). -/
def findProject (s : State) (pk : Nat) : Option ProjectRow :=
  s.projects.find? (fun r => r.pk == pk)

/-- `IRRLog.objects.filter(data=pk)`. -/
def irrLogFor (s : State) (pk : Nat) : List IRRLogRow :=
  s.irrLog.filter (fun r => r.data == pk)

/-- `AssignedData.objects.filter(data=pk, profile=profile)`. -/
def assignmentsFor (s : State) (pk profile : Nat) : List AssignedRow :=
  s.assignedData.filter (fun r => r.data == pk && r.profile == profile)

/-- `RecycleBin.objects.filter(data=pk).count()`. -/
def recycleCount (s : State) (pk : Nat) : Nat :=
  (s.recycleBin.filter (fun r => r.data == pk)).length

/-- `DataLabel.objects.filter(data=pk)`. -/
def dataLabelsFor (s : State) (pk : Nat) : List DataLabelRow :=
  s.dataLabels.filter (fun r => r.data == pk)

/-- Delete the unique assignment row for `(pk, profile)` —
`AssignedData.objects.get(data=data, profile=profile).delete()` once the row
has been found. -/
def deleteAssignment (s : State) (pk profile : Nat) : State :=
  { s with assignedData :=
      s.assignedData.filter (fun r => !(r.data == pk && r.profile == profile)) }

/-- Reason string shown for an admin-queue entry, computed exactly as in
`data_admin_table` (lines 524–529): explicit-flagged items (in projects using
the explicit indicator) over `IRR` over `Skipped`. -/
def admin_reason (project : ProjectRow) (d : DataRow) : String :=
  if project.use_explicit_ind && d.explicit_ind then "Explicit"
  else if d.irr_ind then "IRR"
  else "Skipped"

/-- `true` when every vote in the list is the same label. -/
def votesAgree : List Nat → Bool
  | [] => true
  | v :: rest => rest.all (fun w => w == v)

/-- Idempotent admin-queue enqueue per spec §4.2: re-enqueuing an
already-queued item is a no-op, not an error. -/
def enqueueAdmin (s : State) (pk proj : Nat) : State :=
  if (QueueRow.mk pk proj) ∈ s.dataQueueAdmin then s
  else { s with dataQueueAdmin := s.dataQueueAdmin ++ [⟨pk, proj⟩] }

/-- Modelled from the spec: `process_irr_label` lives in
`core/utils/utils_annotate.py`, which is not under `src/`. Spec §4.5 step 3:
the triggering vote is already in the ReliabilityVote log when this runs
(appended by `skip_data` for skips, by `label_data` for label votes). A skip
vote (`label = none`) always escalates to the admin queue with reason `IRR`
(the reason being derived from the item's flags, see `admin_reason`); a label
vote that brings the history count to exactly
`project.requiredReliabilityVoters` adjudicates — if all non-skip votes in
the full history agree the item is finalized (resolved; no routing, the
remaining post-commit bookkeeping being out of the spec's scope), otherwise
it escalates to the admin queue; a label vote below the required count takes
no routing action. Assignment release is performed by the callers. -/
def process_irr_label (s : State) (data : DataRow) (label : Option Nat) : State :=
  match findProject s data.project with
  | none => s
  | some project =>
    let history := irrLogFor s data.pk
    match label with
    | none => enqueueAdmin s data.pk data.project
    | some _ =>
      if history.length = project.num_users_irr then
        if votesAgree (history.filterMap (fun r => r.label)) then s
        else enqueueAdmin s data.pk data.project
      else s

/-- The success path of `label_data` (see below): append the LabelingRecord,
record the vote in the ReliabilityVote log when the item is
reliability-checked, and remove the coder's assignment row. -/
def label_data_apply (s : State) (label : LabelRow) (data : DataRow)
    (project : ProjectRow) (profile : Nat) (time : Nat) (reason : String)
    (now : Nat) : State :=
  let s1 : State := { s with dataLabels := s.dataLabels ++
      [⟨data.pk, label.pk, profile, reason, project.current_training_set,
        some time, false, now⟩] }
  let s2 : State :=
    if data.irr_ind then
      { s1 with irrLog := s1.irrLog ++
          [⟨data.pk, profile, some label.pk, reason, now⟩] }
    else s1
  deleteAssignment s2 data.pk profile

/-- Modelled from the spec: `label_data` lives in
`core/utils/utils_annotate.py`, which is not under `src/`. Spec §4.6
(`submitLabel`): `LabelStore.record(...)` appends a LabelingRecord; the vote
is recorded in the ReliabilityVote log when the item is reliability-checked
(§4.5: "a vote is either a label or a skip, recorded in ReliabilityVote
log"); and the coder's assignment on the item is released per §4.1 —
`release(item, coder)` fails with `NotAssigned` when no assignment row
exists, the operation aborts (§7), and, the record/vote/release sequence
being one atomic transaction (§5), none of its writes survive. `none`
signals that failure. -/
def label_data (s : State) (label : LabelRow) (data : DataRow)
    (project : ProjectRow) (profile : Nat) (time : Nat) (reason : String)
    (now : Nat) : Option State :=
  if assignmentsFor s data.pk profile = [] then none
  else some (label_data_apply s label data project profile time reason now)

/-- Modelled from the spec: `move_skipped_to_admin_queue` lives in
`core/utils/utils_annotate.py`, which is not under `src/`. Spec §4.6
(`submitSkip`, non-reliability branch): release the coder's assignment and
enqueue the item to the admin queue (reason derived as `Skipped`). The
release follows §4.1 — it fails with `NotAssigned` when no assignment row
exists, the operation aborts (§7) and its release/enqueue transaction (§5)
leaves no partial write; `none` signals that failure. -/
def move_skipped_to_admin_queue (s : State) (data : DataRow) (profile : Nat)
    (project : ProjectRow) : Option State :=
  if assignmentsFor s data.pk profile = [] then none
  else some (enqueueAdmin (deleteAssignment s data.pk profile) data.pk project.pk)

/-- Modelled from the spec: `unassign_datum` lives in
`core/utils/utils_annotate.py`, which is not under `src/`. Spec §4.1
(`release` / `releaseAll`): the assignment row is removed and the item
returns to the available pool (a derived state, so no further store write
is needed here). -/
def unassign_datum (s : State) (pk profile : Nat) : State :=
  deleteAssignment s pk profile

/-- Arguments of the `skip_data` view (`POST` body plus the requesting
profile and the current time). -/
structure SkipArgs where
  data_pk : Nat
  labelID : Nat
  labeling_time : Nat
  labelReason : String
  is_explicit : Bool
  profile : Nat
  now : Nat

/-- `skip_data` (source lines 153–222): record a `was_skipped=True` label
(after purging reliability state when `is_explicit`), then route: recycled →
drop the assignment; reliability item or existing reliability history → drop
the assignment, append a skip vote, and run `process_irr_label` only when the
pre-vote history count is at most `num_users_irr`; otherwise hand the item to
`move_skipped_to_admin_queue`. (`check_and_trigger_model` is the external
retraining notifier, out of scope per spec §1/§6.) -/
def skip_data (s : State) (a : SkipArgs) : State × Outcome :=
  match findData s a.data_pk with
  | none => (s, .notFound)
  | some data =>
  match findProject s data.project with
  | none => (s, .notFound)
  | some project =>
  match findLabel s a.labelID with
  | none => (s, .notFound)
  | some _label =>
    -- transaction.atomic block (lines 175–194)
    let sd : State × DataRow :=
      if a.is_explicit then
        ({ s with
            datas := s.datas.map (fun r =>
              if r.pk == a.data_pk then
                { r with irr_ind := false, explicit_ind := true } else r),
            irrLog := s.irrLog.filter (fun r => !(r.data == a.data_pk)),
            dataLabels := s.dataLabels.filter (fun r => !(r.data == a.data_pk)) },
         { data with irr_ind := false, explicit_ind := true })
      else (s, data)
    let s1 : State := sd.1
    let data1 := sd.2
    let s2 : State := { s1 with dataLabels := s1.dataLabels ++
        [⟨a.data_pk, a.labelID, a.profile, a.labelReason,
          project.current_training_set, some a.labeling_time, true, a.now⟩] }
    let num_history := (irrLogFor s2 a.data_pk).length
    if recycleCount s2 a.data_pk > 0 then
      match getUnique (assignmentsFor s2 a.data_pk a.profile) with
      | .absent => (s2, .notFound)
      | .multiple => (s2, .multipleReturned)
      | .found _ => (deleteAssignment s2 a.data_pk a.profile, .resp none)
    else if data1.irr_ind || num_history > 0 then
      match getUnique (assignmentsFor s2 a.data_pk a.profile) with
      | .absent => (s2, .notFound)
      | .multiple => (s2, .multipleReturned)
      | .found _ =>
        let s3 : State := deleteAssignment s2 a.data_pk a.profile
        let s4 : State := { s3 with irrLog := s3.irrLog ++
            [⟨a.data_pk, a.profile, none, "", a.now⟩] }
        if num_history ≤ project.num_users_irr then
          (process_irr_label s4 data1 none, .resp none)
        else (s4, .resp none)
    else
      -- the first transaction (skip record, explicit purge) has already
      -- committed; a NotAssigned abort inside the helper leaves `s2`
      match move_skipped_to_admin_queue s2 data1 a.profile project with
      | none => (s2, .notAssigned)
      | some s3 => (s3, .resp none)

/-- Arguments of the `annotate_data` view. -/
structure AnnotateArgs where
  data_pk : Nat
  labelID : Nat
  labeling_time : Nat
  labelReason : String
  profile : Nat
  now : Nat

/-- `annotate_data` (source lines 225–275): recycled → drop the assignment;
history count already at or above `num_users_irr` → append the vote to the
log and drop the assignment (late vote, no re-adjudication); otherwise
`label_data` records the label and, when the item is a reliability item,
`process_irr_label` runs the resolution step. -/
def annotate_data (s : State) (a : AnnotateArgs) : State × Outcome :=
  match findData s a.data_pk with
  | none => (s, .notFound)
  | some data =>
  match findProject s data.project with
  | none => (s, .notFound)
  | some project =>
  match findLabel s a.labelID with
  | none => (s, .notFound)
  | some label =>
    let num_history := (irrLogFor s a.data_pk).length
    if recycleCount s a.data_pk > 0 then
      match getUnique (assignmentsFor s a.data_pk a.profile) with
      | .absent => (s, .notFound)
      | .multiple => (s, .multipleReturned)
      | .found _ => (deleteAssignment s a.data_pk a.profile, .resp none)
    else if num_history ≥ project.num_users_irr then
      let s1 : State := { s with irrLog := s.irrLog ++
          [⟨a.data_pk, a.profile, some a.labelID, a.labelReason, a.now⟩] }
      match getUnique (assignmentsFor s1 a.data_pk a.profile) with
      | .absent => (s1, .notFound)
      | .multiple => (s1, .multipleReturned)
      | .found _ => (deleteAssignment s1 a.data_pk a.profile, .resp none)
    else
      -- a NotAssigned abort inside label_data rolls its transaction back,
      -- leaving the state untouched
      match label_data s label data project a.profile a.labeling_time
          a.labelReason a.now with
      | none => (s, .notAssigned)
      | some s1 =>
        if data.irr_ind then
          (process_irr_label s1 data (some a.labelID), .resp none)
        else (s1, .resp none)

/-- `discard_data` (source lines 278–314): admin-only move of an item to the
recycle bin. `perm` is the result of the external permission oracle
(`project_extras.proj_permission_level`). The admin branch looks the item up
in the admin queue with `.get` — raising `DoesNotExist` when absent — before
any write; the non-admin branch returns a domain-level error payload. -/
def discard_data (s : State) (data_pk profile perm now : Nat) :
    State × Outcome :=
  match findData s data_pk with
  | none => (s, .notFound)
  | some data =>
    if perm > 1 then
      match getUnique (s.dataQueueAdmin.filter (fun r =>
          r.data == data_pk && r.project == data.project)) with
      | .absent => (s, .notFound)
      | .multiple => (s, .multipleReturned)
      | .found _ =>
        let s1 : State := { s with dataQueueAdmin := s.dataQueueAdmin.filter (fun r =>
            !(r.data == data_pk && r.project == data.project)) }
        let s2 : State := { s1 with irrLog := s1.irrLog.filter (fun r =>
            !(r.data == data_pk)) }
        let s3 : State := { s2 with dataLabels := s2.dataLabels.filter (fun r =>
            !(r.data == data_pk)) }
        let s4 : State := { s3 with datas := s3.datas.map (fun r =>
            if r.pk == data_pk then { r with irr_ind := false } else r) }
        let s5 : State := { s4 with recycleBin := s4.recycleBin ++ [⟨data_pk, now⟩] }
        -- the second IRRLog deletion (lines 308–309) is a no-op by then
        let s6 : State := { s5 with irrLog := s5.irrLog.filter (fun r =>
            !(r.data == data_pk)) }
        (s6, .resp none)
    else
      (s, .resp (some "Invalid credentials. Must be an admin."))

/-- Arguments of the `modify_label` view. -/
structure ModifyArgs where
  data_pk : Nat
  labelID : Nat
  oldLabelID : Nat
  labelReason : String
  profile : Nat
  now : Nat

/-- `modify_label` (source lines 341–379): inside one `transaction.atomic()`
block, update every `DataLabel` row matching (data, old label) to the new
label with `time_to_label=0`, and append a `LabelChangeLog` row carrying the
two label names. `txOk` states whether the atomic block commits; when it does
not, both writes roll back together. -/
def modify_label (s : State) (a : ModifyArgs) (txOk : Bool) : State × Outcome :=
  match findData s a.data_pk with
  | none => (s, .notFound)
  | some data =>
  match findLabel s a.labelID with
  | none => (s, .notFound)
  | some label =>
  match findLabel s a.oldLabelID with
  | none => (s, .notFound)
  | some old_label =>
    if txOk then
      let s1 : State := { s with dataLabels := s.dataLabels.map (fun r =>
          if r.data == a.data_pk && r.label == a.oldLabelID then
            { r with label := a.labelID, label_reason := a.labelReason,
                     time_to_label := some 0, timestamp := a.now }
          else r) }
      let s2 : State := { s1 with changeLog := s1.changeLog ++
          [⟨data.project, a.data_pk, a.profile, old_label.name, label.name,
            a.now⟩] }
      (s2, .resp none)
    else (s, .dbError)

/-- Arguments of the `modify_label_to_skip` view. -/
structure SkipModArgs where
  data_pk : Nat
  labelID : Nat
  oldLabelID : Nat
  labelReason : String
  is_explicit : Bool
  profile : Nat
  now : Nat

/-- `modify_label_to_skip` (source lines 382–441): inside one atomic block,
update the caller's matching record to `was_skipped=True`; when
`is_explicit`, purge reliability state (clear `irr_ind`, set `explicit_ind`,
delete the item's IRRLog rows and its non-skipped DataLabel rows); then
either append a null vote to the IRRLog (reliability item, only when the
caller has no prior vote) or create an admin-queue row directly
(`DataQueue.objects.create`, an unconditional insert); always append a
`LabelChangeLog` row with new label name `"skip"`. -/
def modify_label_to_skip (s : State) (a : SkipModArgs) : State × Outcome :=
  match findData s a.data_pk with
  | none => (s, .notFound)
  | some data =>
  match findLabel s a.oldLabelID with
  | none => (s, .notFound)
  | some old_label =>
  match findLabel s a.labelID with
  | none => (s, .notFound)
  | some _new_label =>
    let s1 : State := { s with dataLabels := s.dataLabels.map (fun r =>
        if r.data == a.data_pk && r.label == a.oldLabelID &&
            r.profile == a.profile then
          { r with label := a.labelID, time_to_label := some 0,
                   label_reason := a.labelReason, was_skipped := true,
                   timestamp := a.now }
        else r) }
    let sd : State × DataRow :=
      if a.is_explicit then
        ({ s1 with
            datas := s1.datas.map (fun r =>
              if r.pk == a.data_pk then
                { r with irr_ind := false, explicit_ind := true } else r),
            irrLog := s1.irrLog.filter (fun r => !(r.data == a.data_pk)),
            dataLabels := s1.dataLabels.filter (fun r =>
              !(r.data == a.data_pk && r.was_skipped == false)) },
         { data with irr_ind := false, explicit_ind := true })
      else (s1, data)
    let s2 : State := sd.1
    let data2 := sd.2
    let s3 : State :=
      if data2.irr_ind then
        if (s2.irrLog.filter (fun r =>
            r.data == a.data_pk && r.profile == a.profile)).length = 0 then
          { s2 with irrLog := s2.irrLog ++
              [⟨a.data_pk, a.profile, none, "", a.now⟩] }
        else s2
      else
        { s2 with dataQueueAdmin := s2.dataQueueAdmin ++
            [⟨a.data_pk, data.project⟩] }
    let s4 : State := { s3 with changeLog := s3.changeLog ++
        [⟨data.project, a.data_pk, a.profile, old_label.name, "skip", a.now⟩] }
    (s4, .resp none)

/-- `enter_coding_page` (source lines 461–478): when the caller's permission
level denotes admin (`perm > 1`) and no `AdminProgress` row exists for the
project, create one owned by the caller. -/
def enter_coding_page (s : State) (project profile perm now : Nat) :
    State × Outcome :=
  match findProject s project with
  | none => (s, .notFound)
  | some _ =>
    if perm > 1 then
      if (s.adminProgress.filter (fun r => r.project == project)).length = 0 then
        ({ s with adminProgress := s.adminProgress ++
            [⟨project, profile, now⟩] }, .resp none)
      else (s, .resp none)
    else (s, .resp none)

/-- `leave_coding_page` (source lines 481–503): release every assignment of
the caller (`unassign_datum` over `AssignedData.objects.filter(profile=...)`,
modelled as removing all of the caller's assignment rows), then, when the
caller is an admin owning an `AdminProgress` row for the project, delete that
row (`.get` then `.delete`, so duplicate rows would raise instead). -/
def leave_coding_page (s : State) (project profile perm : Nat) :
    State × Outcome :=
  match findProject s project with
  | none => (s, .notFound)
  | some _ =>
    let s1 : State := { s with assignedData := s.assignedData.filter (fun r =>
        !(r.profile == profile)) }
    if perm > 1 then
      if (s1.adminProgress.filter (fun r =>
          r.project == project && r.profile == profile)).length > 0 then
        match getUnique (s1.adminProgress.filter (fun r =>
            r.project == project && r.profile == profile)) with
        | .found _ =>
          ({ s1 with adminProgress := s1.adminProgress.filter (fun r =>
              !(r.project == project && r.profile == profile)) }, .resp none)
        | .absent => (s1, .notFound)
        | .multiple => (s1, .multipleReturned)
      else (s1, .resp none)
    else (s1, .resp none)

/-- Arguments of the `label_skew_label` view. -/
structure SkewArgs where
  data_pk : Nat
  labelID : Nat
  labelReason : String
  profile : Nat
  now : Nat

/-- `label_skew_label` (source lines 608–648): delete every `DataLabel` row
for the item (line 631, before the permission check, guarding a race with
items passed out after page load); then, only for admins (`perm ≥ 2`), create
the admin's label; non-admins get a domain-level error payload — after the
deletion already happened. -/
def label_skew_label (s : State) (a : SkewArgs) (perm : Nat) :
    State × Outcome :=
  match findData s a.data_pk with
  | none => (s, .notFound)
  | some datum =>
  match findProject s datum.project with
  | none => (s, .notFound)
  | some project =>
  match findLabel s a.labelID with
  | none => (s, .notFound)
  | some _label =>
    let s1 : State := { s with dataLabels := s.dataLabels.filter (fun r =>
        !(r.data == a.data_pk)) }
    if perm ≥ 2 then
      ({ s1 with dataLabels := s1.dataLabels ++
          [⟨a.data_pk, a.labelID, a.profile, a.labelReason,
            project.current_training_set, none, false, a.now⟩] }, .resp none)
    else
      (s1, .resp (some "Invalid permission. Must be an admin."))

/-- Arguments of the `label_admin_label` view. -/
structure AdminLabelArgs where
  data_pk : Nat
  labelID : Nat
  labelReason : String
  is_explicit : Bool
  profile : Nat
  now : Nat

/-- `label_admin_label` (source lines 651–705): delete every existing
`DataLabel` row for the item (line 676) — this happens BEFORE the
`transaction.atomic()` block — then, inside the atomic block, set
`explicit_ind` to the supplied value, create the admin's label, remove the
item from the admin queue, and clear `irr_ind` if set. `txOk` states whether
the atomic block commits; when it does not, only the block's writes roll
back, and the pre-transaction deletion persists. -/
def label_admin_label (s : State) (a : AdminLabelArgs) (txOk : Bool) :
    State × Outcome :=
  match findData s a.data_pk with
  | none => (s, .notFound)
  | some datum =>
  match findProject s datum.project with
  | none => (s, .notFound)
  | some project =>
  match findLabel s a.labelID with
  | none => (s, .notFound)
  | some _label =>
    let s1 : State := { s with dataLabels := s.dataLabels.filter (fun r =>
        !(r.data == a.data_pk)) }
    if txOk then
      let s2 : State := { s1 with datas := s1.datas.map (fun r =>
          if r.pk == a.data_pk then { r with explicit_ind := a.is_explicit }
          else r) }
      let s3 : State := { s2 with dataLabels := s2.dataLabels ++
          [⟨a.data_pk, a.labelID, a.profile, a.labelReason,
            project.current_training_set, none, false, a.now⟩] }
      let s4 : State := { s3 with dataQueueAdmin := s3.dataQueueAdmin.filter (fun r =>
          !(r.data == a.data_pk && r.project == datum.project)) }
      let s5 : State :=
        if datum.irr_ind then
          { s4 with datas := s4.datas.map (fun r =>
              if r.pk == a.data_pk then { r with irr_ind := false } else r) }
        else s4
      (s5, .resp none)
    else
      (s1, .dbError)

/-- Spec §3 (AdminLock): at most one live `AdminProgress` row per project. -/
def AtMostOneAdmin (s : State) : Prop :=
  ∀ p : Nat, (s.adminProgress.filter (fun r => r.project == p)).length ≤ 1

/-- One session operation: entering or leaving the coding page. -/
inductive SessionOp where
  | enter (project profile perm now : Nat)
  | leave (project profile perm : Nat)

/-- State reached by one session operation. -/
def applySession (s : State) : SessionOp → State
  | .enter pr pf pm now => (enter_coding_page s pr pf pm now).1
  | .leave pr pf pm => (leave_coding_page s pr pf pm).1

/-- State reached by a sequence of session operations. -/
def runSession (s : State) : List SessionOp → State
  | [] => s
  | op :: rest => runSession (applySession s op) rest

/-- C1 counterexample input: a non-recycled reliability item (pk 1, project
10 with `num_users_irr = 1`) whose vote history already holds two votes, with
an assignment held by profile 4. -/
def c1xState : State :=
  { datas := [⟨1, 10, "t", true, false⟩]
    labels := [⟨5, "cat", 10⟩]
    projects := [⟨10, 1, false, 0⟩]
    dataLabels := []
    irrLog := [⟨1, 2, some 5, "", 0⟩, ⟨1, 3, some 5, "", 0⟩]
    assignedData := [⟨1, 4⟩]
    dataQueueAdmin := []
    recycleBin := []
    changeLog := []
    adminProgress := [] }

/-- C1 counterexample request: profile 4 skips item 1. -/
def c1xArgs : SkipArgs := ⟨1, 5, 7, "", false, 4, 9⟩

/-- C1 witness input: same shape but only one prior vote
(`num_users_irr = 2`), so the history count is within the required number. -/
def c1wState : State :=
  { datas := [⟨1, 10, "t", true, false⟩]
    labels := [⟨5, "cat", 10⟩]
    projects := [⟨10, 2, false, 0⟩]
    dataLabels := []
    irrLog := [⟨1, 2, some 5, "", 0⟩]
    assignedData := [⟨1, 4⟩]
    dataQueueAdmin := []
    recycleBin := []
    changeLog := []
    adminProgress := [] }

/-- C1 witness request. -/
def c1wArgs : SkipArgs := ⟨1, 5, 7, "", false, 4, 9⟩

/-- Second C1 counterexample input: a non-recycled history-only reliability
item — `irr_ind = false` but one vote in the log, two voters required — so a
skip is escalated, but the entry's derived reason is `Skipped`, not `IRR`. -/
def c1yState : State :=
  { datas := [⟨1, 10, "t", false, false⟩]
    labels := [⟨5, "cat", 10⟩]
    projects := [⟨10, 2, false, 0⟩]
    dataLabels := []
    irrLog := [⟨1, 2, some 5, "", 0⟩]
    assignedData := [⟨1, 4⟩]
    dataQueueAdmin := []
    recycleBin := []
    changeLog := []
    adminProgress := [] }

/-- C2 witness input: reliability item with one prior (disagreeing) vote and
`num_users_irr = 2`, so the next label vote adjudicates. -/
def c2wState : State :=
  { datas := [⟨1, 10, "t", true, false⟩]
    labels := [⟨5, "cat", 10⟩, ⟨6, "dog", 10⟩]
    projects := [⟨10, 2, false, 0⟩]
    dataLabels := []
    irrLog := [⟨1, 2, some 6, "", 0⟩]
    assignedData := [⟨1, 4⟩]
    dataQueueAdmin := []
    recycleBin := []
    changeLog := []
    adminProgress := [] }

/-- C2 witness request: profile 4 votes label 5 on item 1. -/
def c2wArgs : AnnotateArgs := ⟨1, 5, 7, "", 4, 9⟩

/-- C3 counterexample input: item 1 sits in the admin queue and carries a
prior label. -/
def c3xState : State :=
  { datas := [⟨1, 10, "t", false, false⟩]
    labels := [⟨5, "cat", 10⟩]
    projects := [⟨10, 2, false, 0⟩]
    dataLabels := [⟨1, 5, 2, "", 0, some 3, false, 0⟩]
    irrLog := []
    assignedData := []
    dataQueueAdmin := [⟨1, 10⟩]
    recycleBin := []
    changeLog := []
    adminProgress := [] }

/-- C3 counterexample request. -/
def c3xArgs : AdminLabelArgs := ⟨1, 5, "", false, 9, 4⟩

/-- C4 counterexample input: a recycled reliability item with a prior vote,
a prior label, and an assignment held by profile 4. -/
def c4xState : State :=
  { datas := [⟨1, 10, "t", true, false⟩]
    labels := [⟨5, "cat", 10⟩]
    projects := [⟨10, 2, false, 0⟩]
    dataLabels := [⟨1, 5, 2, "", 0, some 3, false, 0⟩]
    irrLog := [⟨1, 2, some 5, "", 0⟩]
    assignedData := [⟨1, 4⟩]
    dataQueueAdmin := []
    recycleBin := [⟨1, 0⟩]
    changeLog := []
    adminProgress := [] }

/-- C4 counterexample request: an explicit-flagged skip. -/
def c4xArgs : SkipArgs := ⟨1, 5, 7, "", true, 4, 9⟩

/-- C4 witness input: the same item, not recycled. -/
def c4wState : State :=
  { datas := [⟨1, 10, "t", true, false⟩]
    labels := [⟨5, "cat", 10⟩]
    projects := [⟨10, 2, false, 0⟩]
    dataLabels := [⟨1, 5, 2, "", 0, some 3, false, 0⟩]
    irrLog := [⟨1, 2, some 5, "", 0⟩]
    assignedData := [⟨1, 4⟩]
    dataQueueAdmin := []
    recycleBin := []
    changeLog := []
    adminProgress := [] }

/-- C4 witness request. -/
def c4wArgs : SkipArgs := ⟨1, 5, 7, "", true, 4, 9⟩

/-- C5 witness input: item 1 carries two records with the old label (from
profiles 2 and 3), so the update matches multiple rows. -/
def c5wState : State :=
  { datas := [⟨1, 10, "t", false, false⟩]
    labels := [⟨5, "cat", 10⟩, ⟨6, "dog", 10⟩]
    projects := [⟨10, 2, false, 0⟩]
    dataLabels := [⟨1, 5, 2, "", 0, some 3, false, 0⟩, ⟨1, 5, 3, "", 0, some 4, false, 0⟩]
    irrLog := []
    assignedData := []
    dataQueueAdmin := []
    recycleBin := []
    changeLog := []
    adminProgress := [] }

/-- C5 witness request: change label 5 to label 6 on item 1. -/
def c5wArgs : ModifyArgs := ⟨1, 6, 5, "", 4, 9⟩

/-- C6/C10 witness input: item 1 has a label, a vote and queue membership, so
any write would be visible. -/
def c6wState : State :=
  { datas := [⟨1, 10, "t", true, false⟩]
    labels := [⟨5, "cat", 10⟩]
    projects := [⟨10, 2, false, 0⟩]
    dataLabels := [⟨1, 5, 2, "", 0, some 3, false, 0⟩]
    irrLog := [⟨1, 2, some 5, "", 0⟩]
    assignedData := []
    dataQueueAdmin := [⟨1, 10⟩]
    recycleBin := []
    changeLog := []
    adminProgress := [] }

/-- C10 witness input: like `c6wState` but item 1 is not in the admin
queue. -/
def c10wState : State :=
  { datas := [⟨1, 10, "t", true, false⟩]
    labels := [⟨5, "cat", 10⟩]
    projects := [⟨10, 2, false, 0⟩]
    dataLabels := [⟨1, 5, 2, "", 0, some 3, false, 0⟩]
    irrLog := [⟨1, 2, some 5, "", 0⟩]
    assignedData := []
    dataQueueAdmin := []
    recycleBin := []
    changeLog := []
    adminProgress := [] }

/-- C7 witness input: one project, no lock held yet. -/
def c7wState : State :=
  { datas := []
    labels := []
    projects := [⟨10, 2, false, 0⟩]
    dataLabels := []
    irrLog := []
    assignedData := [⟨1, 4⟩]
    dataQueueAdmin := []
    recycleBin := []
    changeLog := []
    adminProgress := [] }

/-- C7 witness operations: two admins enter, the owner leaves, the second
enters again. -/
def c7wOps : List SessionOp :=
  [.enter 10 4 2 0, .enter 10 5 2 1, .leave 10 4 2, .enter 10 5 2 2]

/-- C8 witness input: a reliability item where profile 4 holds a record with
the old label and has no prior vote. -/
def c8wState : State :=
  { datas := [⟨1, 10, "t", true, false⟩]
    labels := [⟨5, "cat", 10⟩, ⟨6, "dog", 10⟩]
    projects := [⟨10, 2, false, 0⟩]
    dataLabels := [⟨1, 5, 4, "", 0, some 3, false, 0⟩]
    irrLog := [⟨1, 2, some 5, "", 0⟩]
    assignedData := []
    dataQueueAdmin := []
    recycleBin := []
    changeLog := []
    adminProgress := [] }

/-- C8 witness request: profile 4 turns its label-5 record into a skip. -/
def c8wArgs : SkipModArgs := ⟨1, 6, 5, "", false, 4, 9⟩

/-- C9 witness input: item 1 carries labels from two profiles. -/
def c9wState : State :=
  { datas := [⟨1, 10, "t", false, false⟩]
    labels := [⟨5, "cat", 10⟩]
    projects := [⟨10, 2, false, 0⟩]
    dataLabels := [⟨1, 5, 2, "", 0, some 3, false, 0⟩, ⟨1, 5, 3, "", 0, some 4, false, 0⟩]
    irrLog := []
    assignedData := []
    dataQueueAdmin := []
    recycleBin := []
    changeLog := []
    adminProgress := [] }

/-- C9 witness request. -/
def c9wArgs : SkewArgs := ⟨1, 5, "", 6, 9⟩

/- ------------------------------------------------------------------ -/
/- Helper lemmas                                                      -/
/- ------------------------------------------------------------------ -/

theorem filter_filter_length_le {α : Type} (l : List α) (p q : α → Bool) :
    ((l.filter q).filter p).length ≤ (l.filter p).length :=
  List.Sublist.length_le (List.Sublist.filter p (List.filter_sublist l))

theorem filter_not_filter_nil {α : Type} (l : List α) (p : α → Bool) :
    (l.filter (fun r => !(p r))).filter p = [] := by
  induction l with
  | nil => rfl
  | cons a l ih => by_cases h : p a <;> simp [List.filter_cons, h, ih]

theorem mem_enqueueAdmin (s : State) (pk proj : Nat) :
    QueueRow.mk pk proj ∈ (enqueueAdmin s pk proj).dataQueueAdmin := by
  unfold enqueueAdmin
  split
  · assumption
  · simp

theorem enqueueAdmin_irrLog (s : State) (pk proj : Nat) :
    (enqueueAdmin s pk proj).irrLog = s.irrLog := by
  unfold enqueueAdmin; split <;> rfl

theorem enqueueAdmin_dataLabels (s : State) (pk proj : Nat) :
    (enqueueAdmin s pk proj).dataLabels = s.dataLabels := by
  unfold enqueueAdmin; split <;> rfl

theorem enqueueAdmin_datas (s : State) (pk proj : Nat) :
    (enqueueAdmin s pk proj).datas = s.datas := by
  unfold enqueueAdmin; split <;> rfl

theorem findData_map_update (l : List DataRow) (pk : Nat) (f : DataRow → DataRow)
    (hf : ∀ r, (f r).pk = r.pk) (d : DataRow)
    (h : l.find? (fun r => r.pk == pk) = some d) :
    (l.map (fun r => if r.pk == pk then f r else r)).find?
      (fun r => r.pk == pk) = some (f d) := by
  induction l with
  | nil => simp at h
  | cons a l ih =>
    cases hpk : (a.pk == pk) with
    | true =>
      simp only [List.find?, hpk] at h
      cases h
      have hfd : ((f d).pk == pk) = true := by
        rw [Nat.beq_eq_true_eq] at hpk ⊢
        rw [hf]; exact hpk
      simp only [List.map_cons, hpk, if_true, List.find?, hfd]
    | false =>
      simp only [List.find?, hpk] at h
      simp only [List.map_cons]
      rw [if_neg (by simp [hpk])]
      simp only [List.find?, hpk]
      exact ih h

theorem process_irr_label_skip (s : State) (d : DataRow) (p : ProjectRow)
    (hp : findProject s d.project = some p) :
    process_irr_label s d none = enqueueAdmin s d.pk d.project := by
  simp [process_irr_label, hp]

theorem mem_process_skip (s : State) (d : DataRow) (p : ProjectRow)
    (hp : findProject s d.project = some p) :
    QueueRow.mk d.pk d.project ∈ (process_irr_label s d none).dataQueueAdmin := by
  rw [process_irr_label_skip s d p hp]
  exact mem_enqueueAdmin s d.pk d.project

theorem process_irr_label_vote (s : State) (d : DataRow) (p : ProjectRow) (v : Nat)
    (hp : findProject s d.project = some p) :
    process_irr_label s d (some v) =
      if (irrLogFor s d.pk).length = p.num_users_irr then
        if votesAgree ((irrLogFor s d.pk).filterMap (fun r => r.label)) then s
        else enqueueAdmin s d.pk d.project
      else s := by
  simp [process_irr_label, hp]

theorem leave_adminProgress_cases (s : State) (pr pf pm : Nat) :
    (leave_coding_page s pr pf pm).1.adminProgress = s.adminProgress ∨
    (leave_coding_page s pr pf pm).1.adminProgress =
      s.adminProgress.filter (fun r => !(r.project == pr && r.profile == pf)) := by
  simp only [leave_coding_page]
  split
  · left; rfl
  · split
    · split
      · split
        · right; rfl
        · left; rfl
        · left; rfl
      · left; rfl
    · left; rfl

theorem enter_adminProgress_cases (s : State) (pr pf pm now : Nat) :
    (enter_coding_page s pr pf pm now).1.adminProgress = s.adminProgress ∨
    ((s.adminProgress.filter (fun r => r.project == pr)).length = 0 ∧
     (enter_coding_page s pr pf pm now).1.adminProgress =
       s.adminProgress ++ [⟨pr, pf, now⟩]) := by
  simp only [enter_coding_page]
  split
  · left; rfl
  · split
    · split
      · next hc => right; exact ⟨hc, rfl⟩
      · left; rfl
    · left; rfl

theorem enter_preserves_adminInv (s : State) (pr pf pm now : Nat)
    (h : AtMostOneAdmin s) :
    AtMostOneAdmin (enter_coding_page s pr pf pm now).1 := by
  intro q
  rcases enter_adminProgress_cases s pr pf pm now with hc | ⟨hz, hc⟩ <;> rw [hc]
  · exact h q
  · rw [List.filter_append, List.length_append]
    by_cases hq : pr = q
    · subst hq
      rw [hz]
      simp
    · have hrow : ((AdminProgressRow.mk pr pf now).project == q) = false := by
        simp [hq]
      simp [List.filter_cons, hrow]
      exact h q

theorem leave_preserves_adminInv (s : State) (pr pf pm : Nat)
    (h : AtMostOneAdmin s) :
    AtMostOneAdmin (leave_coding_page s pr pf pm).1 := by
  intro q
  rcases leave_adminProgress_cases s pr pf pm with hc | hc <;> rw [hc]
  · exact h q
  · exact le_trans (filter_filter_length_le _ _ _) (h q)

/- ------------------------------------------------------------------ -/
/- Claims                                                             -/
/- ------------------------------------------------------------------ -/

/-- C1 counterexample: the claim says a skip vote on a non-recycled
reliability item (`reliabilityFlag=true` or existing reliability history)
always produces an admin-queue entry with reason `IRR`, regardless of how
the history count compares to the required number of voters. Two concrete
refutations. At `c1xState` — item 1 has `irr_ind = true`, two votes already
in history, one voter required — `skip_data` succeeds and appends the skip
vote, yet the admin queue stays empty: the source only calls
`process_irr_label` when `num_history <= project.num_users_irr` (line 213).
At `c1yState` — a history-only item, `irr_ind = false` with one vote in the
log and two voters required — the skip is escalated into the admin queue,
but the item's row is unchanged (`irr_ind` still false), so the derived
reason shown by `data_admin_table` is `Skipped`, not `IRR`. -/
theorem skip_vote_count_and_reason_cex :
    ((skip_data c1xState c1xArgs).2 = Outcome.resp none ∧
     (skip_data c1xState c1xArgs).1.dataQueueAdmin = [] ∧
     (skip_data c1xState c1xArgs).1.irrLog.length = 3) ∧
    ((skip_data c1yState c1xArgs).2 = Outcome.resp none ∧
     (skip_data c1yState c1xArgs).1.dataQueueAdmin = [⟨1, 10⟩] ∧
     findData (skip_data c1yState c1xArgs).1 1 =
       some ⟨1, 10, "t", false, false⟩ ∧
     admin_reason ⟨10, 2, false, 0⟩ ⟨1, 10, "t", false, false⟩ = "Skipped") := by
  decide

/-- C1 (amended): a skip vote submitted via `skip_data` without the explicit
flag, by a coder holding the item's assignment, on a non-recycled item that
is a reliability item (`irr_ind = true` or existing reliability history)
produces an admin-queue entry provided the pre-vote history count is at most
the required number of reliability voters — the entry's derived reason being
`IRR` when the item's reliability flag is set; when the history count already
exceeds the required number, the vote is only appended and no entry is
produced (see the counterexample, which also shows the derived reason is
`Skipped` rather than `IRR` for history-only items). -/
theorem skip_vote_within_required_escalates_irr
    (s : State) (a : SkipArgs) (d : DataRow) (p : ProjectRow) (l : LabelRow)
    (hd : findData s a.data_pk = some d)
    (hp : findProject s d.project = some p)
    (hl : findLabel s a.labelID = some l)
    (hdisj : d.irr_ind = true ∨ 0 < (irrLogFor s a.data_pk).length)
    (hexp : a.is_explicit = false)
    (hexp2 : d.explicit_ind = false)
    (hrec : recycleCount s a.data_pk = 0)
    (hasg : assignmentsFor s a.data_pk a.profile = [⟨a.data_pk, a.profile⟩])
    (hcnt : (irrLogFor s a.data_pk).length ≤ p.num_users_irr) :
    QueueRow.mk a.data_pk d.project ∈ (skip_data s a).1.dataQueueAdmin ∧
    (d.irr_ind = true → admin_reason p d = "IRR") ∧
    (skip_data s a).2 = Outcome.resp none := by
  have hdpk : d.pk = a.data_pk := by
    have h := List.find?_some hd
    simpa using h
  have hrec' : (s.recycleBin.filter (fun r => r.data == a.data_pk)).length = 0 := by
    simpa [recycleCount] using hrec
  have hasg' : s.assignedData.filter
      (fun r => r.data == a.data_pk && r.profile == a.profile) =
      [⟨a.data_pk, a.profile⟩] := by
    simpa [assignmentsFor] using hasg
  have hcnt' : (s.irrLog.filter (fun r => r.data == a.data_pk)).length ≤
      p.num_users_irr := by
    simpa [irrLogFor] using hcnt
  rcases hdisj with hirr | hhist
  · refine ⟨?_, ?_, ?_⟩
    · simp only [skip_data, hd, hp, hl, hexp]
      simp [recycleCount, hrec', assignmentsFor, hasg', getUnique, irrLogFor,
        hcnt', hirr]
      rw [← hdpk]
      apply mem_process_skip
      simpa [findProject, deleteAssignment] using hp
    · intro _
      simp [admin_reason, hexp2, hirr]
    · simp only [skip_data, hd, hp, hl, hexp]
      simp [recycleCount, hrec', assignmentsFor, hasg', getUnique, irrLogFor,
        hcnt', hirr]
  · have hhist' : 0 < (s.irrLog.filter (fun r => r.data == a.data_pk)).length := by
      simpa [irrLogFor] using hhist
    refine ⟨?_, ?_, ?_⟩
    · simp only [skip_data, hd, hp, hl, hexp]
      simp [recycleCount, hrec', assignmentsFor, hasg', getUnique, irrLogFor,
        hcnt', hhist']
      rw [← hdpk]
      apply mem_process_skip
      simpa [findProject, deleteAssignment] using hp
    · intro hf
      simp [admin_reason, hexp2, hf]
    · simp only [skip_data, hd, hp, hl, hexp]
      simp [recycleCount, hrec', assignmentsFor, hasg', getUnique, irrLogFor,
        hcnt', hhist']

/-- C1 witness: the amended theorem applied at `c1wState` (a flag-set
reliability item, one prior vote, two required voters). -/
theorem skip_vote_within_required_escalates_irr_witness :
    QueueRow.mk 1 10 ∈ (skip_data c1wState c1wArgs).1.dataQueueAdmin ∧
    ((true : Bool) = true →
      admin_reason ⟨10, 2, false, 0⟩ ⟨1, 10, "t", true, false⟩ = "IRR") ∧
    (skip_data c1wState c1wArgs).2 = Outcome.resp none :=
  skip_vote_within_required_escalates_irr c1wState c1wArgs
    ⟨1, 10, "t", true, false⟩ ⟨10, 2, false, 0⟩ ⟨5, "cat", 10⟩
    (by decide) (by decide) (by decide) (Or.inl (by decide)) (by decide)
    (by decide) (by decide) (by decide) (by decide)

/-- C2: a label vote via `annotate_data` by a coder holding the item's
assignment, on a non-recycled reliability item whose history is strictly
below the required number of voters, appends the vote to the history; when
that vote brings the count to exactly the required number, adjudication runs
— the admin queue is untouched when all non-skip votes in the full history
agree (the item is finalized), and the item is queued with derived reason
`IRR` when they disagree; a vote leaving the count strictly below the
requirement takes no routing action. -/
theorem label_vote_adjudicates_exactly_at_required
    (s : State) (a : AnnotateArgs) (d : DataRow) (p : ProjectRow) (l : LabelRow)
    (hd : findData s a.data_pk = some d)
    (hp : findProject s d.project = some p)
    (hl : findLabel s a.labelID = some l)
    (hirr : d.irr_ind = true)
    (hexp2 : d.explicit_ind = false)
    (hrec : recycleCount s a.data_pk = 0)
    (hasg : assignmentsFor s a.data_pk a.profile = [⟨a.data_pk, a.profile⟩])
    (hcnt : (irrLogFor s a.data_pk).length < p.num_users_irr) :
    irrLogFor (annotate_data s a).1 a.data_pk =
      irrLogFor s a.data_pk ++
        [⟨a.data_pk, a.profile, some a.labelID, a.labelReason, a.now⟩] ∧
    ((irrLogFor s a.data_pk).length + 1 = p.num_users_irr →
      (votesAgree ((irrLogFor (annotate_data s a).1 a.data_pk).filterMap
          (fun r => r.label)) = true →
        (annotate_data s a).1.dataQueueAdmin = s.dataQueueAdmin) ∧
      (votesAgree ((irrLogFor (annotate_data s a).1 a.data_pk).filterMap
          (fun r => r.label)) = false →
        QueueRow.mk a.data_pk d.project ∈ (annotate_data s a).1.dataQueueAdmin ∧
        admin_reason p d = "IRR")) ∧
    ((irrLogFor s a.data_pk).length + 1 < p.num_users_irr →
      (annotate_data s a).1.dataQueueAdmin = s.dataQueueAdmin) ∧
    (annotate_data s a).2 = Outcome.resp none := by
  have hdpk : d.pk = a.data_pk := by simpa using List.find?_some hd
  have hlpk : l.pk = a.labelID := by simpa using List.find?_some hl
  have hnge : ¬ (irrLogFor s a.data_pk).length ≥ p.num_users_irr := by omega
  have hasg' : s.assignedData.filter
      (fun r => r.data == a.data_pk && r.profile == a.profile) =
      [⟨a.data_pk, a.profile⟩] := by
    simpa [assignmentsFor] using hasg
  have hLD : label_data s l d p a.profile a.labeling_time a.labelReason a.now =
      some (label_data_apply s l d p a.profile a.labeling_time a.labelReason
        a.now) := by
    simp [label_data, assignmentsFor, hdpk, hasg']
  have hmain : annotate_data s a =
      (process_irr_label
        (label_data_apply s l d p a.profile a.labeling_time a.labelReason a.now)
        d (some a.labelID), Outcome.resp none) := by
    simp [annotate_data, hd, hp, hl, hrec, hnge, hirr, hLD]
  have hfst : (annotate_data s a).1 =
      process_irr_label
        (label_data_apply s l d p a.profile a.labeling_time a.labelReason a.now)
        d (some a.labelID) := by
    rw [hmain]
  have hsnd : (annotate_data s a).2 = Outcome.resp none := by
    rw [hmain]
  have hS1log : (label_data_apply s l d p a.profile a.labeling_time
      a.labelReason a.now).irrLog =
      s.irrLog ++ [⟨a.data_pk, a.profile, some a.labelID, a.labelReason, a.now⟩] := by
    simp [label_data_apply, hirr, deleteAssignment, hdpk, hlpk]
  have hS1q : (label_data_apply s l d p a.profile a.labeling_time a.labelReason
      a.now).dataQueueAdmin = s.dataQueueAdmin := by
    simp [label_data_apply, hirr, deleteAssignment]
  have hS1proj : findProject (label_data_apply s l d p a.profile a.labeling_time
      a.labelReason a.now) d.project = some p := by
    simpa [label_data_apply, hirr, deleteAssignment, findProject] using hp
  have hnew : irrLogFor (label_data_apply s l d p a.profile a.labeling_time
      a.labelReason a.now) a.data_pk =
      irrLogFor s a.data_pk ++
        [⟨a.data_pk, a.profile, some a.labelID, a.labelReason, a.now⟩] := by
    simp [irrLogFor, hS1log, List.filter_append]
  have hvote := process_irr_label_vote
    (label_data_apply s l d p a.profile a.labeling_time a.labelReason a.now)
    d p a.labelID hS1proj
  rw [hdpk] at hvote
  have hresLog : (process_irr_label
      (label_data_apply s l d p a.profile a.labeling_time a.labelReason a.now)
      d (some a.labelID)).irrLog =
      (label_data_apply s l d p a.profile a.labeling_time a.labelReason
        a.now).irrLog := by
    rw [hvote]
    split
    · split
      · rfl
      · rw [enqueueAdmin_irrLog]
    · rfl
  have hresHist : irrLogFor (process_irr_label
      (label_data_apply s l d p a.profile a.labeling_time a.labelReason a.now)
      d (some a.labelID)) a.data_pk =
      irrLogFor s a.data_pk ++
        [⟨a.data_pk, a.profile, some a.labelID, a.labelReason, a.now⟩] := by
    rw [irrLogFor, hresLog, ← irrLogFor, hnew]
  refine ⟨?_, ?_, ?_, ?_⟩
  · rw [hfst]
    exact hresHist
  · intro hreq
    have hc1 : (irrLogFor (label_data_apply s l d p a.profile a.labeling_time
        a.labelReason a.now) a.data_pk).length = p.num_users_irr := by
      rw [hnew, List.length_append]
      simpa using hreq
    constructor
    · intro hagree
      rw [hfst, hresHist] at hagree
      rw [hfst, hvote, if_pos hc1, if_pos (by rw [hnew]; exact hagree)]
      exact hS1q
    · intro hdis
      rw [hfst, hresHist] at hdis
      constructor
      · rw [hfst, hvote, if_pos hc1,
          if_neg (by
            rw [hnew]
            simp only [irrLogFor] at hdis ⊢
            simp at hdis
            simp [hdis])]
        exact mem_enqueueAdmin _ a.data_pk d.project
      · simp [admin_reason, hexp2, hirr]
  · intro hlt
    rw [hfst, hvote, if_neg ?_]
    · exact hS1q
    · rw [hnew, List.length_append]
      simp only [List.length_singleton]
      omega
  · exact hsnd

/-- C2 witness: the theorem applied at `c2wState` — one prior disagreeing
vote, two required voters, the caller holding the assignment, so this vote
adjudicates. -/
theorem label_vote_adjudicates_exactly_at_required_witness :
    irrLogFor (annotate_data c2wState c2wArgs).1 1 =
      irrLogFor c2wState 1 ++ [⟨1, 4, some 5, "", 9⟩] ∧
    ((irrLogFor c2wState 1).length + 1 = 2 →
      (votesAgree ((irrLogFor (annotate_data c2wState c2wArgs).1 1).filterMap
          (fun r => r.label)) = true →
        (annotate_data c2wState c2wArgs).1.dataQueueAdmin =
          c2wState.dataQueueAdmin) ∧
      (votesAgree ((irrLogFor (annotate_data c2wState c2wArgs).1 1).filterMap
          (fun r => r.label)) = false →
        QueueRow.mk 1 10 ∈ (annotate_data c2wState c2wArgs).1.dataQueueAdmin ∧
        admin_reason ⟨10, 2, false, 0⟩ ⟨1, 10, "t", true, false⟩ = "IRR")) ∧
    ((irrLogFor c2wState 1).length + 1 < 2 →
      (annotate_data c2wState c2wArgs).1.dataQueueAdmin =
        c2wState.dataQueueAdmin) ∧
    (annotate_data c2wState c2wArgs).2 = Outcome.resp none :=
  label_vote_adjudicates_exactly_at_required c2wState c2wArgs
    ⟨1, 10, "t", true, false⟩ ⟨10, 2, false, 0⟩ ⟨5, "cat", 10⟩
    (by decide) (by decide) (by decide) (by decide) (by decide) (by decide)
    (by decide) (by decide)


/-- C3 counterexample: the claim says `label_admin_label`'s multi-store
mutation is all-or-nothing — in particular that the deletion of the item's
prior labels does not persist when the rest of the transaction rolls back.
At `c3xState`, running the view with a failing atomic block (`txOk = false`)
aborts the request, yet the item's prior label is gone while the admin-queue
entry survives: the deletion (source line 676) sits before the
`transaction.atomic()` block (line 678) and persists. -/
theorem admin_label_delete_survives_failed_tx_cex :
    (label_admin_label c3xState c3xArgs false).2 = Outcome.dbError ∧
    (label_admin_label c3xState c3xArgs false).1.dataLabels = [] ∧
    c3xState.dataLabels ≠ [] ∧
    (label_admin_label c3xState c3xArgs false).1.dataQueueAdmin = [⟨1, 10⟩] ∧
    (label_admin_label c3xState c3xArgs false).1 ≠ c3xState := by decide

/-- C3 (amended): in `label_admin_label`, the writes inside the atomic block
(explicit-flag update, admin label record, admin-queue removal, reliability
flag clearing) are all-or-nothing, but the deletion of the item's prior
labels happens before the transaction: when the block fails, the resulting
state is exactly the original with the item's labels deleted. -/
theorem admin_label_rollback_keeps_predelete
    (s : State) (a : AdminLabelArgs) (d : DataRow) (p : ProjectRow) (l : LabelRow)
    (hd : findData s a.data_pk = some d)
    (hp : findProject s d.project = some p)
    (hl : findLabel s a.labelID = some l) :
    (label_admin_label s a false).1 =
      { s with dataLabels := s.dataLabels.filter (fun r => !(r.data == a.data_pk)) } ∧
    (label_admin_label s a false).2 = Outcome.dbError := by
  simp [label_admin_label, hd, hp, hl]

/-- C3 witness: the amended theorem applied at `c3xState`. -/
theorem admin_label_rollback_keeps_predelete_witness :
    (label_admin_label c3xState c3xArgs false).1 =
      { c3xState with dataLabels :=
          c3xState.dataLabels.filter (fun r => !(r.data == 1)) } ∧
    (label_admin_label c3xState c3xArgs false).2 = Outcome.dbError :=
  admin_label_rollback_keeps_predelete c3xState c3xArgs
    ⟨1, 10, "t", false, false⟩ ⟨10, 2, false, 0⟩ ⟨5, "cat", 10⟩
    (by decide) (by decide) (by decide)

/-- C4 counterexample: the claim says every explicit-flagged skip on a
reliability item lands directly in the admin queue. At `c4xState` the item is
recycled: the purge happens and the reliability flag is cleared, the call
succeeds, yet the admin queue stays empty — the recycled branch merely drops
the assignment. -/
theorem explicit_skip_recycled_item_not_queued_cex :
    (skip_data c4xState c4xArgs).2 = Outcome.resp none ∧
    (skip_data c4xState c4xArgs).1.dataQueueAdmin = [] ∧
    irrLogFor (skip_data c4xState c4xArgs).1 1 = [] ∧
    findData (skip_data c4xState c4xArgs).1 1 =
      some ⟨1, 10, "t", false, true⟩ := by decide

/-- C4 (amended): an explicit-flagged skip via `skip_data` by a coder
holding the item's assignment, on a non-recycled reliability item, purges
every prior reliability vote and labeling record of the item (only the
freshly created skip record remains), clears the reliability flag while
setting the explicit flag, and the item proceeds down the non-reliability
path into the admin queue. -/
theorem explicit_skip_purges_and_queues
    (s : State) (a : SkipArgs) (d : DataRow) (p : ProjectRow) (l : LabelRow)
    (hd : findData s a.data_pk = some d)
    (hp : findProject s d.project = some p)
    (hl : findLabel s a.labelID = some l)
    (hirr : d.irr_ind = true)
    (hexp : a.is_explicit = true)
    (hrec : recycleCount s a.data_pk = 0)
    (hasg : assignmentsFor s a.data_pk a.profile = [⟨a.data_pk, a.profile⟩]) :
    irrLogFor (skip_data s a).1 a.data_pk = [] ∧
    dataLabelsFor (skip_data s a).1 a.data_pk =
      [⟨a.data_pk, a.labelID, a.profile, a.labelReason, p.current_training_set,
        some a.labeling_time, true, a.now⟩] ∧
    findData (skip_data s a).1 a.data_pk =
      some { d with irr_ind := false, explicit_ind := true } ∧
    QueueRow.mk a.data_pk d.project ∈ (skip_data s a).1.dataQueueAdmin ∧
    (skip_data s a).2 = Outcome.resp none := by
  have hdpk : d.pk = a.data_pk := by simpa using List.find?_some hd
  have hppk : p.pk = d.project := by simpa using List.find?_some hp
  have hrec' : (s.recycleBin.filter (fun r => r.data == a.data_pk)).length = 0 := by
    simpa [recycleCount] using hrec
  have hasg' : s.assignedData.filter
      (fun r => r.data == a.data_pk && r.profile == a.profile) =
      [⟨a.data_pk, a.profile⟩] := by
    simpa [assignmentsFor] using hasg
  have hmain : skip_data s a =
      (enqueueAdmin
        (deleteAssignment
          { s with
              datas := s.datas.map (fun r =>
                if r.pk == a.data_pk then
                  { r with irr_ind := false, explicit_ind := true } else r),
              irrLog := s.irrLog.filter (fun r => !(r.data == a.data_pk)),
              dataLabels := (s.dataLabels.filter (fun r => !(r.data == a.data_pk))) ++
                [⟨a.data_pk, a.labelID, a.profile, a.labelReason,
                  p.current_training_set, some a.labeling_time, true, a.now⟩] }
          a.data_pk a.profile)
        a.data_pk p.pk,
       Outcome.resp none) := by
    simp [skip_data, hd, hp, hl, hexp, recycleCount, hrec', irrLogFor,
      filter_not_filter_nil, move_skipped_to_admin_queue, assignmentsFor,
      hasg', hdpk]
  have hfst := congrArg Prod.fst hmain
  have hsnd := congrArg Prod.snd hmain
  simp only [] at hfst hsnd
  refine ⟨?_, ?_, ?_, ?_, ?_⟩
  · rw [hfst]
    simp only [irrLogFor, enqueueAdmin_irrLog, deleteAssignment]
    exact filter_not_filter_nil _ _
  · rw [hfst]
    simp only [dataLabelsFor, enqueueAdmin_dataLabels, deleteAssignment]
    rw [List.filter_append, filter_not_filter_nil]
    simp
  · rw [hfst]
    simp only [findData, enqueueAdmin_datas, deleteAssignment]
    exact findData_map_update s.datas a.data_pk
      (fun r => { r with irr_ind := false, explicit_ind := true })
      (fun r => rfl) d (by simpa [findData] using hd)
  · rw [hfst, hppk]
    exact mem_enqueueAdmin _ a.data_pk d.project
  · rw [hsnd]

/-- C4 witness: the amended theorem applied at `c4wState` (not recycled,
assignment held by the submitting coder). -/
theorem explicit_skip_purges_and_queues_witness :
    irrLogFor (skip_data c4wState c4wArgs).1 1 = [] ∧
    dataLabelsFor (skip_data c4wState c4wArgs).1 1 =
      [⟨1, 5, 4, "", 0, some 7, true, 9⟩] ∧
    findData (skip_data c4wState c4wArgs).1 1 =
      some ⟨1, 10, "t", false, true⟩ ∧
    QueueRow.mk 1 10 ∈ (skip_data c4wState c4wArgs).1.dataQueueAdmin ∧
    (skip_data c4wState c4wArgs).2 = Outcome.resp none :=
  explicit_skip_purges_and_queues c4wState c4wArgs
    ⟨1, 10, "t", true, false⟩ ⟨10, 2, false, 0⟩ ⟨5, "cat", 10⟩
    (by decide) (by decide) (by decide) (by decide) (by decide) (by decide)
    (by decide)


/-- C5: every committing `modify_label` call appends exactly one new
`LabelChangeLog` row whose old and new label names are the literal names of
the supplied labels — whatever number of `DataLabel` rows the update matches
— while the update rewrites every matching row with `time_to_label = 0`; and
when the shared atomic block fails, neither write survives. -/
theorem modify_label_single_audit_row
    (s : State) (a : ModifyArgs) (d : DataRow) (l lOld : LabelRow)
    (hd : findData s a.data_pk = some d)
    (hl : findLabel s a.labelID = some l)
    (hol : findLabel s a.oldLabelID = some lOld) :
    (modify_label s a true).1.changeLog =
      s.changeLog ++ [⟨d.project, a.data_pk, a.profile, lOld.name, l.name, a.now⟩] ∧
    (modify_label s a true).1.dataLabels =
      s.dataLabels.map (fun r =>
        if r.data == a.data_pk && r.label == a.oldLabelID then
          { r with label := a.labelID, label_reason := a.labelReason,
                   time_to_label := some 0, timestamp := a.now }
        else r) ∧
    (modify_label s a true).2 = Outcome.resp none ∧
    (modify_label s a false).1 = s ∧
    (modify_label s a false).2 = Outcome.dbError := by
  simp [modify_label, hd, hl, hol]

/-- C5 witness: the theorem applied at `c5wState`, where the update matches
two rows and still exactly one audit row is appended. -/
theorem modify_label_single_audit_row_witness :
    (modify_label c5wState c5wArgs true).1.changeLog =
      c5wState.changeLog ++ [⟨10, 1, 4, "cat", "dog", 9⟩] ∧
    (modify_label c5wState c5wArgs true).1.dataLabels =
      c5wState.dataLabels.map (fun r =>
        if r.data == 1 && r.label == 5 then
          { r with label := 6, label_reason := "",
                   time_to_label := some 0, timestamp := 9 }
        else r) ∧
    (modify_label c5wState c5wArgs true).2 = Outcome.resp none ∧
    (modify_label c5wState c5wArgs false).1 = c5wState ∧
    (modify_label c5wState c5wArgs false).2 = Outcome.dbError :=
  modify_label_single_audit_row c5wState c5wArgs
    ⟨1, 10, "t", false, false⟩ ⟨6, "dog", 10⟩ ⟨5, "cat", 10⟩
    (by decide) (by decide) (by decide)

/-- C6: a `discard_data` call whose caller's permission level does not denote
admin (`perm ≤ 1`) returns the domain-level error payload as a normal
response and leaves the state untouched: no queue removal, no deletion of
labels or reliability log, no flag change, no recycle entry. -/
theorem discard_nonadmin_error_no_writes
    (s : State) (data_pk profile perm now : Nat) (d : DataRow)
    (hd : findData s data_pk = some d)
    (hperm : perm ≤ 1) :
    discard_data s data_pk profile perm now =
      (s, Outcome.resp (some "Invalid credentials. Must be an admin.")) := by
  have h : ¬ perm > 1 := by omega
  simp [discard_data, hd, h]

/-- C6 witness: the theorem applied at `c6wState` with permission level 1. -/
theorem discard_nonadmin_error_no_writes_witness :
    discard_data c6wState 1 7 1 5 =
      (c6wState, Outcome.resp (some "Invalid credentials. Must be an admin.")) :=
  discard_nonadmin_error_no_writes c6wState 1 7 1 5
    ⟨1, 10, "t", true, false⟩ (by decide) (by decide)

/-- C7: at most one `AdminProgress` row per project is an invariant preserved
by every sequence of `enter_coding_page` and `leave_coding_page` operations:
entering creates a lock only when none exists for the project, and leaving
deletes only the caller's own row. -/
theorem admin_lock_at_most_one_preserved
    (s : State) (ops : List SessionOp) (h : AtMostOneAdmin s) :
    AtMostOneAdmin (runSession s ops) := by
  induction ops generalizing s with
  | nil => exact h
  | cons op rest ih =>
    cases op with
    | enter pr pf pm now =>
      exact ih _ (enter_preserves_adminInv s pr pf pm now h)
    | leave pr pf pm =>
      exact ih _ (leave_preserves_adminInv s pr pf pm h)

/-- C7 witness: the theorem applied at `c7wState` over a sequence in which
two admins enter, the owner leaves, and the second admin re-enters. -/
theorem admin_lock_at_most_one_preserved_witness :
    AtMostOneAdmin (runSession c7wState c7wOps) :=
  admin_lock_at_most_one_preserved c7wState c7wOps
    (by intro q; simp [c7wState])

/-- C8: a `modify_label_to_skip` call without the explicit flag appends
exactly one `LabelChangeLog` row with new label name `"skip"`; on a
reliability item it appends a null reliability vote only when the caller has
no prior vote for the item and never touches the admin queue; on a
non-reliability item it enqueues the item directly to the admin queue and
never touches the vote log. -/
theorem modify_to_skip_vote_or_enqueue
    (s : State) (a : SkipModArgs) (d : DataRow) (lOld lNew : LabelRow)
    (hd : findData s a.data_pk = some d)
    (hol : findLabel s a.oldLabelID = some lOld)
    (hnl : findLabel s a.labelID = some lNew)
    (hexp : a.is_explicit = false) :
    (modify_label_to_skip s a).1.changeLog =
      s.changeLog ++ [⟨d.project, a.data_pk, a.profile, lOld.name, "skip", a.now⟩] ∧
    (d.irr_ind = true →
      ((s.irrLog.filter (fun r =>
          r.data == a.data_pk && r.profile == a.profile)).length = 0 →
        (modify_label_to_skip s a).1.irrLog =
          s.irrLog ++ [⟨a.data_pk, a.profile, none, "", a.now⟩]) ∧
      ((s.irrLog.filter (fun r =>
          r.data == a.data_pk && r.profile == a.profile)).length ≠ 0 →
        (modify_label_to_skip s a).1.irrLog = s.irrLog) ∧
      (modify_label_to_skip s a).1.dataQueueAdmin = s.dataQueueAdmin) ∧
    (d.irr_ind = false →
      (modify_label_to_skip s a).1.dataQueueAdmin =
        s.dataQueueAdmin ++ [⟨a.data_pk, d.project⟩] ∧
      (modify_label_to_skip s a).1.irrLog = s.irrLog) ∧
    (modify_label_to_skip s a).2 = Outcome.resp none := by
  by_cases hirr : d.irr_ind = true
  · by_cases hcnt : (s.irrLog.filter (fun r =>
        r.data == a.data_pk && r.profile == a.profile)).length = 0
    · simp [modify_label_to_skip, hd, hol, hnl, hexp, hirr, hcnt]
    · simp [modify_label_to_skip, hd, hol, hnl, hexp, hirr, hcnt]
  · simp at hirr
    simp [modify_label_to_skip, hd, hol, hnl, hexp, hirr]

/-- C8 witness: the theorem applied at `c8wState` — a reliability item where
the caller has no prior vote. -/
theorem modify_to_skip_vote_or_enqueue_witness :
    (modify_label_to_skip c8wState c8wArgs).1.changeLog =
      c8wState.changeLog ++ [⟨10, 1, 4, "cat", "skip", 9⟩] ∧
    ((true : Bool) = true →
      ((c8wState.irrLog.filter (fun r =>
          r.data == 1 && r.profile == 4)).length = 0 →
        (modify_label_to_skip c8wState c8wArgs).1.irrLog =
          c8wState.irrLog ++ [⟨1, 4, none, "", 9⟩]) ∧
      ((c8wState.irrLog.filter (fun r =>
          r.data == 1 && r.profile == 4)).length ≠ 0 →
        (modify_label_to_skip c8wState c8wArgs).1.irrLog = c8wState.irrLog) ∧
      (modify_label_to_skip c8wState c8wArgs).1.dataQueueAdmin =
        c8wState.dataQueueAdmin) ∧
    ((true : Bool) = false →
      (modify_label_to_skip c8wState c8wArgs).1.dataQueueAdmin =
        c8wState.dataQueueAdmin ++ [⟨1, 10⟩] ∧
      (modify_label_to_skip c8wState c8wArgs).1.irrLog = c8wState.irrLog) ∧
    (modify_label_to_skip c8wState c8wArgs).2 = Outcome.resp none :=
  modify_to_skip_vote_or_enqueue c8wState c8wArgs
    ⟨1, 10, "t", true, false⟩ ⟨5, "cat", 10⟩ ⟨6, "dog", 10⟩
    (by decide) (by decide) (by decide) (by decide)

/-- C9: a `label_skew_label` call by a caller whose permission level does not
denote admin (`perm < 2`) still deletes every existing label record of the
item — the deletion precedes the permission check — and then returns the
permission-error payload: the error path is not state-preserving. -/
theorem skew_label_nonadmin_still_deletes
    (s : State) (a : SkewArgs) (perm : Nat) (d : DataRow) (p : ProjectRow)
    (l : LabelRow)
    (hd : findData s a.data_pk = some d)
    (hp : findProject s d.project = some p)
    (hl : findLabel s a.labelID = some l)
    (hperm : perm < 2) :
    label_skew_label s a perm =
      ({ s with dataLabels := s.dataLabels.filter (fun r => !(r.data == a.data_pk)) },
       Outcome.resp (some "Invalid permission. Must be an admin.")) := by
  have h : ¬ perm ≥ 2 := by omega
  simp [label_skew_label, hd, hp, hl, h]

/-- C9 witness: the theorem applied at `c9wState`, whose two label rows for
item 1 are removed although the caller is rejected. -/
theorem skew_label_nonadmin_still_deletes_witness :
    label_skew_label c9wState c9wArgs 1 =
      ({ c9wState with dataLabels :=
          c9wState.dataLabels.filter (fun r => !(r.data == 1)) },
       Outcome.resp (some "Invalid permission. Must be an admin.")) :=
  skew_label_nonadmin_still_deletes c9wState c9wArgs 1
    ⟨1, 10, "t", false, false⟩ ⟨10, 2, false, 0⟩ ⟨5, "cat", 10⟩
    (by decide) (by decide) (by decide) (by decide)

/-- C10: a `discard_data` call by an admin (`perm > 1`) on an item with no
admin-queue membership fails with NotFound at the membership lookup, before
any write: the state is returned unchanged — no label or vote deletion, no
flag change, no recycle entry. -/
theorem discard_admin_unqueued_notfound_no_writes
    (s : State) (data_pk profile perm now : Nat) (d : DataRow)
    (hd : findData s data_pk = some d)
    (hperm : perm > 1)
    (hq : s.dataQueueAdmin.filter (fun r =>
        r.data == data_pk && r.project == d.project) = []) :
    discard_data s data_pk profile perm now = (s, Outcome.notFound) := by
  simp [discard_data, hd, hperm, hq, getUnique]

/-- C10 witness: the theorem applied at `c10wState`, where item 1 is not in
the admin queue. -/
theorem discard_admin_unqueued_notfound_no_writes_witness :
    discard_data c10wState 1 7 2 5 = (c10wState, Outcome.notFound) :=
  discard_admin_unqueued_notfound_no_writes c10wState 1 7 2 5
    ⟨1, 10, "t", true, false⟩ (by decide) (by decide) (by decide)

end Smart
